import Mathlib

/-!
Shallow embedding of the WhatsApp call webhook service
(src/python-agent/python_service.py).

The service consists of:
* `handle_req` — the aiohttp request handler registered on `POST /run`:
  parses the JSON body, spawns `handle_call` as a fire-and-forget task
  (`asyncio.create_task`), and returns `200 OK` with body "OK" without
  awaiting the task.
* `handle_call` — the coordinator coroutine: reads `call["id"]`,
  `call["event"]`; returns the "ignored" response when the event is not
  "connect"; otherwise reads `call["session"]["sdp"]`, builds an
  `RTCPeerConnection`, synthesizes the greeting (`generate_tts`), performs
  SDP negotiation (`setRemoteDescription` / `createAnswer` /
  `setLocalDescription`), POSTs a `pre_accept` signaling action, registers
  an `iceconnectionstatechange` handler that POSTs `accept` whenever the
  ICE connection state reads "connected", and returns the "TTS sent"
  response.

External collaborators (TTS backend, WebRTC stack, outbound HTTP) are
modelled by an `Env` of injectable outcomes; each Python-level exception
path becomes an explicit error branch.  Outbound `requests.post` calls are
recorded as `Post` values in the order they are attempted.  Delivery of
ICE connectivity notifications after the inline run is modelled by
`deliverOne` / `deliverAll`, which invoke the registered handler body
exactly as the decorated callback does: the handler reads the current ICE
state and posts `accept` iff that state equals "connected"; it mutates
nothing and never deregisters itself.
-/

namespace WaWebhook

/-- The module-level constant `GRAPH`. -/
def GRAPH : String := "https://graph.facebook.com/v20.0"

/-- Module-level configuration read from the environment
(`PHONE_NUMBER_ID`, `WHATSAPP_TOKEN`). -/
structure Config where
  phoneNumberId : String
  token : String
deriving DecidableEq

/-- The `session` member of the inbound JSON payload; `sdp` is absent when
the key is missing (Python would raise `KeyError`). -/
structure SessionPayload where
  sdp : Option String
deriving DecidableEq

/-- The parsed inbound JSON body handed to `handle_call`; each field is
`none` when the corresponding key is missing from the JSON object. -/
structure CallPayload where
  id : Option String
  event : Option String
  session : Option SessionPayload
deriving DecidableEq

/-- Failure of the TTS backend (`generate_tts` raising). -/
inductive SynthesisError
  | unavailable
deriving DecidableEq

/-- Failure of an SDP negotiation step (`setRemoteDescription`,
`createAnswer` or `setLocalDescription` raising). -/
inductive NegotiationError
  | failed
deriving DecidableEq

/-- Outcome of a `requests.post` call: either an HTTP response was received
(any status code — the code never inspects it) or the call raised a
network-level exception. -/
inductive SendOutcome
  | response (status : Nat)
  | raised
deriving DecidableEq

/-- Injectable outcomes of the external collaborators for one run. -/
structure Env where
  tts : Except SynthesisError String
  setRemote : Except NegotiationError Unit
  createAnswer : Except NegotiationError String
  setLocal : Except NegotiationError Unit
  preAcceptSend : SendOutcome

/-- One outbound signaling request (`requests.post` to the Graph API),
with the fields the code actually sends. -/
structure Post where
  url : String
  authorization : String
  messaging_product : String
  call_id : String
  action : String
  sdp_type : String
  sdp : String
deriving DecidableEq

/-- The Python exception (if any) that escaped the coroutine. -/
inductive RunError
  | keyError (field : String)
  | synthesisError
  | negotiationError
  | signalingRaised
deriving DecidableEq

/-- Observable outcome of one `handle_call` coroutine run: the returned
`web.Response` text (if it returned), the escaped exception (if it raised),
the signaling posts attempted inline, whether the
`iceconnectionstatechange` handler got registered (and with which captured
`call_id` / local SDP), and whether `pc.close()` was ever called (the code
never calls it). -/
structure RunOutcome where
  response : Option String
  error : Option RunError
  posts : List Post
  handlerRegistered : Bool
  handlerCallId : String
  handlerSdp : String
  pcClosed : Bool
deriving DecidableEq

/-- Outcome of a run that raised exception `e` after attempting `ps`. -/
def aborted (e : RunError) (ps : List Post) : RunOutcome :=
  { response := none, error := some e, posts := ps,
    handlerRegistered := false, handlerCallId := "", handlerSdp := "",
    pcClosed := false }

/-- The outbound URL `f"{GRAPH}/{PHONE_NUMBER_ID}/calls"`. -/
def callsUrl (cfg : Config) : String :=
  GRAPH ++ "/" ++ cfg.phoneNumberId ++ "/calls"

/-- The authorization header `f"Bearer {WHATSAPP_TOKEN}"`. -/
def bearer (cfg : Config) : String :=
  "Bearer " ++ cfg.token

/-- The `pre_accept` signaling request built at the PRE-ACCEPT step. -/
def preAcceptPost (cfg : Config) (cid sdp : String) : Post :=
  { url := callsUrl cfg, authorization := bearer cfg,
    messaging_product := "whatsapp", call_id := cid,
    action := "pre_accept", sdp_type := "answer", sdp := sdp }

/-- The `accept` signaling request built inside the ICE-state handler. -/
def acceptPost (cfg : Config) (cid sdp : String) : Post :=
  { url := callsUrl cfg, authorization := bearer cfg,
    messaging_product := "whatsapp", call_id := cid,
    action := "accept", sdp_type := "answer", sdp := sdp }

/-- The `handle_call` coroutine.  Field accesses mirror the Python
subscripts in source order (`call["id"]`, `call["event"]`, the connect
check, then `call["session"]["sdp"]`); each collaborator step consults
`env`; an exception anywhere aborts the rest of the coroutine. -/
def handle_call (cfg : Config) (env : Env) (call : CallPayload) : RunOutcome :=
  match call.id with
  | none => aborted (.keyError "id") []
  | some cid =>
    match call.event with
    | none => aborted (.keyError "event") []
    | some ev =>
      if ev = "connect" then
        match call.session with
        | none => aborted (.keyError "session") []
        | some sess =>
          match sess.sdp with
          | none => aborted (.keyError "sdp") []
          | some _offerSdp =>
            match env.tts with
            | .error _ => aborted .synthesisError []
            | .ok _wav =>
              match env.setRemote with
              | .error _ => aborted .negotiationError []
              | .ok _ =>
                match env.createAnswer with
                | .error _ => aborted .negotiationError []
                | .ok answer =>
                  match env.setLocal with
                  | .error _ => aborted .negotiationError []
                  | .ok _ =>
                    match env.preAcceptSend with
                    | .raised =>
                        aborted .signalingRaised [preAcceptPost cfg cid answer]
                    | .response _status =>
                        { response := some "TTS sent", error := none,
                          posts := [preAcceptPost cfg cid answer],
                          handlerRegistered := true, handlerCallId := cid,
                          handlerSdp := answer, pcClosed := false }
      else
        { response := some "ignored", error := none, posts := [],
          handlerRegistered := false, handlerCallId := "", handlerSdp := "",
          pcClosed := false }

/-- Body of the registered `iceconnectionstatechange` callback: reads the
current ICE connection state and posts `accept` iff it equals
"connected". -/
def iceHandlerBody (cfg : Config) (cid sdp iceState : String) : List Post :=
  if iceState = "connected" then [acceptPost cfg cid sdp] else []

/-- Delivery of one ICE connectivity notification to a finished run: the
callback fires only if it was registered; it never mutates the run state
and never deregisters itself. -/
def deliverOne (cfg : Config) (st : RunOutcome) (note : String) :
    RunOutcome × List Post :=
  if st.handlerRegistered then
    (st, iceHandlerBody cfg st.handlerCallId st.handlerSdp note)
  else
    (st, [])

/-- Delivery of a sequence of ICE connectivity notifications, collecting
the signaling posts they trigger. -/
def deliverAll (cfg : Config) (st : RunOutcome) : List String → RunOutcome × List Post
  | [] => (st, [])
  | n :: rest =>
    let r1 := deliverOne cfg st n
    let r2 := deliverAll cfg r1.1 rest
    (r2.1, r1.2 ++ r2.2)

/-- All signaling posts attempted for one call: those of the inline run
followed by those triggered by the ICE notifications delivered
afterwards. -/
def fullTrace (cfg : Config) (env : Env) (call : CallPayload)
    (notes : List String) : List Post :=
  (handle_call cfg env call).posts ++
    (deliverAll cfg (handle_call cfg env call) notes).2

/-- Observable outcome of `handle_req`: HTTP status, body, and how many
coordinator tasks were spawned. -/
structure DispatchResult where
  status : Nat
  body : Option String
  tasksSpawned : Nat
deriving DecidableEq

/-- The `handle_req` aiohttp handler: `await req.json()` (an unparseable
body raises, yielding a 500 from aiohttp), then
`asyncio.create_task(handle_call(data))` without awaiting it, then
`return web.Response(text="OK")`.  The spawned task is not executed here:
its effects are those of `handle_call` / `deliverAll`, computed
separately, so the dispatcher result cannot depend on them. -/
def handle_req (body : Option CallPayload) : DispatchResult :=
  match body with
  | none => { status := 500, body := none, tasksSpawned := 0 }
  | some _data => { status := 200, body := some "OK", tasksSpawned := 1 }

/-- The dispatcher response paired with the effects the spawned task will
eventually produce, given collaborator outcomes `env` and the ICE
notifications `notes` delivered later. -/
def dispatch_system (cfg : Config) (env : Env) (body : Option CallPayload)
    (notes : List String) : DispatchResult × List Post :=
  (handle_req body,
    match body with
    | some call => fullTrace cfg env call notes
    | none => [])

/-! Concrete inputs used to instantiate the theorems. -/

/-- A concrete configuration. -/
def cfg0 : Config := ⟨"PHONE_ID", "TOKEN"⟩

/-- Environment in which every collaborator step succeeds and the
`pre_accept` POST gets a 200 response. -/
def envOK : Env := ⟨.ok "/tmp/welcome.wav", .ok (), .ok "ANSWER_Y", .ok (), .response 200⟩

/-- Environment in which the `pre_accept` POST gets a 500 response. -/
def envPreAccept500 : Env :=
  ⟨.ok "/tmp/welcome.wav", .ok (), .ok "ANSWER_Y", .ok (), .response 500⟩

/-- Environment in which the `pre_accept` POST raises a network-level
exception. -/
def envPreAcceptRaised : Env :=
  ⟨.ok "/tmp/welcome.wav", .ok (), .ok "ANSWER_Y", .ok (), .raised⟩

/-- Environment in which TTS synthesis fails. -/
def envTtsFail : Env :=
  ⟨.error .unavailable, .ok (), .ok "ANSWER_Y", .ok (), .response 200⟩

/-- The spec's scenario event `{id:"C1", event:"connect", session:{sdp:"OFFER_X"}}`. -/
def connectPayload : CallPayload := ⟨some "C1", some "connect", some ⟨some "OFFER_X"⟩⟩

/-- The spec's scenario event with `event:"ringing"`. -/
def ringingPayload : CallPayload := ⟨some "C1", some "ringing", some ⟨some "OFFER_X"⟩⟩

/-- A connect event whose body lacks the `session` member. -/
def noSessionPayload : CallPayload := ⟨some "C1", some "connect", none⟩

/-! Helper lemmas characterising the run and the notification delivery. -/

/-- On the all-steps-succeed path, `handle_call` posts exactly the
`pre_accept` request and registers the ICE handler. -/
lemma handle_call_ok (cfg : Config) (env : Env) (cid o w ans : String)
    (status : Nat) (htts : env.tts = .ok w) (hr : env.setRemote = .ok ())
    (ha : env.createAnswer = .ok ans) (hl : env.setLocal = .ok ())
    (hp : env.preAcceptSend = .response status) :
    handle_call cfg env ⟨some cid, some "connect", some ⟨some o⟩⟩ =
      { response := some "TTS sent", error := none,
        posts := [preAcceptPost cfg cid ans],
        handlerRegistered := true, handlerCallId := cid,
        handlerSdp := ans, pcClosed := false } := by
  unfold handle_call
  rw [htts, hr, ha, hl, hp]
  simp

/-- When every step up to the `pre_accept` POST succeeds but that POST
raises, the coroutine aborts with the escaped exception after attempting
the post, before the ICE handler is registered. -/
lemma handle_call_raised (cfg : Config) (env : Env) (cid o w ans : String)
    (htts : env.tts = .ok w) (hr : env.setRemote = .ok ())
    (ha : env.createAnswer = .ok ans) (hl : env.setLocal = .ok ())
    (hp : env.preAcceptSend = .raised) :
    handle_call cfg env ⟨some cid, some "connect", some ⟨some o⟩⟩ =
      aborted .signalingRaised [preAcceptPost cfg cid ans] := by
  unfold handle_call
  rw [htts, hr, ha, hl, hp]
  simp

/-- Every post attempted inline by `handle_call` is the `pre_accept`
request for the payload's call id, carrying the negotiated answer. -/
lemma handle_call_posts (cfg : Config) (env : Env) (call : CallPayload) :
    ∀ q ∈ (handle_call cfg env call).posts,
      ∃ cid ans, call.id = some cid ∧ env.createAnswer = .ok ans ∧
        q = preAcceptPost cfg cid ans := by
  intro q hq
  unfold handle_call at hq
  repeat' split at hq
  all_goals simp_all [aborted]

/-- If the ICE handler got registered, the whole success path was taken:
all fields were present, every collaborator step succeeded, the
`pre_accept` POST returned a response, and the outcome is the success
record. -/
lemma handle_call_registered (cfg : Config) (env : Env) (call : CallPayload)
    (h : (handle_call cfg env call).handlerRegistered = true) :
    ∃ cid o w ans status sess,
      call.id = some cid ∧ call.event = some "connect" ∧
      call.session = some sess ∧ sess.sdp = some o ∧
      env.tts = .ok w ∧ env.setRemote = .ok () ∧
      env.createAnswer = .ok ans ∧ env.setLocal = .ok () ∧
      env.preAcceptSend = .response status ∧
      handle_call cfg env call =
        { response := some "TTS sent", error := none,
          posts := [preAcceptPost cfg cid ans],
          handlerRegistered := true, handlerCallId := cid,
          handlerSdp := ans, pcClosed := false } := by
  unfold handle_call at h ⊢
  repeat' split at h
  all_goals simp_all [aborted]

/-- Delivering one notification never mutates the run state. -/
lemma deliverOne_fst (cfg : Config) (st : RunOutcome) (n : String) :
    (deliverOne cfg st n).1 = st := by
  unfold deliverOne
  split <;> rfl

/-- Delivering any sequence of notifications never mutates the run state. -/
lemma deliverAll_fst (cfg : Config) (st : RunOutcome) (notes : List String) :
    (deliverAll cfg st notes).1 = st := by
  induction notes with
  | nil => rfl
  | cons n rest ih => simp only [deliverAll, deliverOne_fst]; exact ih

/-- Without a registered handler, delivered notifications trigger no
posts at all. -/
lemma deliverAll_unregistered (cfg : Config) (st : RunOutcome)
    (notes : List String) (h : st.handlerRegistered = false) :
    (deliverAll cfg st notes).2 = [] := by
  induction notes with
  | nil => rfl
  | cons n rest ih =>
      simp only [deliverAll, deliverOne_fst]
      simp [deliverOne, h, ih]

/-- Every post triggered by a delivered notification is the `accept`
request built from the handler's captured call id and local SDP, and can
only occur when the handler is registered. -/
lemma deliverAll_mem (cfg : Config) (st : RunOutcome) (notes : List String) :
    ∀ q ∈ (deliverAll cfg st notes).2,
      st.handlerRegistered = true ∧
      q = acceptPost cfg st.handlerCallId st.handlerSdp := by
  induction notes with
  | nil => simp [deliverAll]
  | cons n rest ih =>
      intro q hq
      simp only [deliverAll, deliverOne_fst, List.mem_append] at hq
      rcases hq with hq | hq
      · unfold deliverOne iceHandlerBody at hq
        split at hq <;> simp_all
      · exact ih q hq

/-- With a registered handler, the number of posts triggered by delivered
notifications equals the number of "connected" notifications. -/
lemma deliverAll_length (cfg : Config) (st : RunOutcome) (notes : List String)
    (h : st.handlerRegistered = true) :
    ((deliverAll cfg st notes).2).length =
      (notes.filter (fun n => n == "connected")).length := by
  induction notes with
  | nil => rfl
  | cons n rest ih =>
      simp only [deliverAll, deliverOne_fst, List.length_append, ih,
        List.filter_cons]
      by_cases hn : n = "connected"
      · simp [deliverOne, iceHandlerBody, h, hn]
        omega
      · simp [deliverOne, iceHandlerBody, h, hn]

/-! Claim theorems. -/

/-- C2 (counterexample): on the "ringing" event the HTTP caller does not
receive the "ignored" acknowledgment and a coordinator task is spawned
anyway: `handle_req` always replies "OK" and always calls
`asyncio.create_task(handle_call(data))`; the "ignored" response is the
discarded result of the spawned task. -/
theorem C2_counterexample :
    ¬ ((handle_req (some ringingPayload)).body = some "ignored" ∧
       (handle_req (some ringingPayload)).tasksSpawned = 0) := by
  decide

/-- C2 (amended): for every inbound event whose event kind is not
"connect", the spawned `handle_call` task returns the "ignored" response
without any side effect (no posts, no handler registration, an empty
signaling trace) — but the HTTP caller receives "OK", and one task is
spawned regardless of the event kind. -/
theorem C2_nonconnect_ignored (cfg : Config) (env : Env) (call : CallPayload)
    (notes : List String) (cid ev : String)
    (hid : call.id = some cid) (hev : call.event = some ev)
    (hne : ev ≠ "connect") :
    (handle_call cfg env call).response = some "ignored" ∧
    (handle_call cfg env call).handlerRegistered = false ∧
    fullTrace cfg env call notes = [] ∧
    (handle_req (some call)).body = some "OK" ∧
    (handle_req (some call)).tasksSpawned = 1 := by
  have hc : handle_call cfg env call =
      { response := some "ignored", error := none, posts := [],
        handlerRegistered := false, handlerCallId := "", handlerSdp := "",
        pcClosed := false } := by
    unfold handle_call
    rw [hid, hev]
    simp [hne]
  refine ⟨by rw [hc], by rw [hc], ?_, rfl, rfl⟩
  simp [fullTrace, hc, deliverAll_unregistered]

/-- C2 (witness): the amended statement instantiated on the "ringing"
scenario event. -/
theorem C2_nonconnect_ignored_witness :
    (handle_call cfg0 envOK ringingPayload).response = some "ignored" ∧
    (handle_call cfg0 envOK ringingPayload).handlerRegistered = false ∧
    fullTrace cfg0 envOK ringingPayload ["connected"] = [] ∧
    (handle_req (some ringingPayload)).body = some "OK" ∧
    (handle_req (some ringingPayload)).tasksSpawned = 1 :=
  C2_nonconnect_ignored cfg0 envOK ringingPayload ["connected"] "C1" "ringing"
    rfl rfl (by decide)

/-- C5: a connectivity notification whose reported ICE state is anything
other than "connected" triggers no `accept` post (indeed no post at all):
the callback body posts only under `pc.iceConnectionState == "connected"`. -/
theorem C5_no_accept_nonconnected (cfg : Config) (st : RunOutcome)
    (n : String) (h : n ≠ "connected") :
    (deliverOne cfg st n).2 = [] := by
  unfold deliverOne iceHandlerBody
  split <;> simp [h]

/-- C5 (witness): a "failed" notification delivered to the pre-accepted
session of the successful scenario run triggers no post. -/
theorem C5_no_accept_nonconnected_witness :
    (deliverOne cfg0 (handle_call cfg0 envOK connectPayload) "failed").2 = [] :=
  C5_no_accept_nonconnected cfg0 (handle_call cfg0 envOK connectPayload)
    "failed" (by decide)

/-- C10: a non-"connected" connectivity notification is a complete no-op:
the run state (including the registered handler) is returned unchanged
with no outbound post, and delivering it followed by any further
notifications still leaves the state — hence the registered watch —
untouched; the code never deregisters the callback and keeps no mutable
session state at all. -/
theorem C10_nonconnected_frame (cfg : Config) (st : RunOutcome) (n : String)
    (notes : List String) (h : n ≠ "connected") :
    deliverOne cfg st n = (st, []) ∧
    (deliverAll cfg st (n :: notes)).1 = st := by
  constructor
  · unfold deliverOne iceHandlerBody
    split <;> simp [h]
  · exact deliverAll_fst cfg st (n :: notes)

/-- C10 (witness): the frame property instantiated on a "disconnected"
notification after the successful scenario run. -/
theorem C10_nonconnected_frame_witness :
    deliverOne cfg0 (handle_call cfg0 envOK connectPayload) "disconnected" =
      (handle_call cfg0 envOK connectPayload, []) ∧
    (deliverAll cfg0 (handle_call cfg0 envOK connectPayload)
        ["disconnected", "connected"]).1 =
      handle_call cfg0 envOK connectPayload :=
  C10_nonconnected_frame cfg0 (handle_call cfg0 envOK connectPayload)
    "disconnected" ["connected"] (by decide)

/-- C6: for every structurally valid inbound body (id, event and
session.sdp all present), the dispatcher replies `200 OK` with body "OK",
for every collaborator environment and every later notification sequence:
the response is computed before the spawned task runs, so it cannot
depend on the downstream outcome. -/
theorem C6_dispatcher_always_ok (cfg : Config) (env : Env)
    (call : CallPayload) (notes : List String) (cid ev o : String)
    (sess : SessionPayload) (hid : call.id = some cid)
    (hev : call.event = some ev) (hs : call.session = some sess)
    (ho : sess.sdp = some o) :
    (dispatch_system cfg env (some call) notes).1 =
      { status := 200, body := some "OK", tasksSpawned := 1 } :=
  rfl

/-- C6 (witness): the dispatcher acknowledgment on the scenario connect
event, in an environment where negotiation succeeds. -/
theorem C6_dispatcher_always_ok_witness :
    (dispatch_system cfg0 envOK (some connectPayload) ["connected"]).1 =
      { status := 200, body := some "OK", tasksSpawned := 1 } :=
  C6_dispatcher_always_ok cfg0 envOK connectPayload ["connected"]
    "C1" "connect" "OFFER_X" ⟨some "OFFER_X"⟩ rfl rfl rfl rfl

/-- C9: when the body parses as JSON but lacks a required field, the
dispatcher still replies `200 OK` with body "OK"; the `KeyError` raised
by the subscript occurs only in the spawned task, whose outcome records
the escaped exception, no posts, and no returned response. -/
theorem C9_missing_field (cfg : Config) (env : Env) (call : CallPayload)
    (h : call.id = none ∨ call.event = none ∨
         (call.event = some "connect" ∧
           (call.session = none ∨
             ∃ sess, call.session = some sess ∧ sess.sdp = none))) :
    (handle_req (some call)).status = 200 ∧
    (handle_req (some call)).body = some "OK" ∧
    ∃ k, handle_call cfg env call = aborted (.keyError k) [] := by
  refine ⟨rfl, rfl, ?_⟩
  obtain ⟨i, e, s⟩ := call
  simp only at h
  rcases h with h | h | ⟨hev, hs⟩
  · subst h
    exact ⟨"id", rfl⟩
  · subst h
    cases i with
    | none => exact ⟨"id", rfl⟩
    | some cid => exact ⟨"event", rfl⟩
  · subst hev
    cases i with
    | none => exact ⟨"id", rfl⟩
    | some cid =>
        rcases hs with hs | ⟨sess, hs, hsdp⟩
        · subst hs
          exact ⟨"session", by simp [handle_call]⟩
        · subst hs
          obtain ⟨osdp⟩ := sess
          subst hsdp
          exact ⟨"sdp", by simp [handle_call]⟩

/-- C9 (witness): the connect event lacking the `session` member. -/
theorem C9_missing_field_witness :
    (handle_req (some noSessionPayload)).status = 200 ∧
    (handle_req (some noSessionPayload)).body = some "OK" ∧
    ∃ k, handle_call cfg0 envOK noSessionPayload = aborted (.keyError k) [] :=
  C9_missing_field cfg0 envOK noSessionPayload
    (Or.inr (Or.inr ⟨rfl, Or.inl rfl⟩))

/-- C4: if TTS synthesis or any SDP negotiation step fails, the coroutine
aborts with the corresponding escaped exception and the whole signaling
trace — inline posts and notification-triggered posts alike — is empty. -/
theorem C4_failure_aborts_no_signaling (cfg : Config) (env : Env)
    (call : CallPayload) (notes : List String) (cid o : String)
    (sess : SessionPayload) (hid : call.id = some cid)
    (hev : call.event = some "connect") (hs : call.session = some sess)
    (ho : sess.sdp = some o)
    (h : (∃ e, env.tts = .error e) ∨ (∃ e, env.setRemote = .error e) ∨
         (∃ e, env.createAnswer = .error e) ∨ (∃ e, env.setLocal = .error e)) :
    (handle_call cfg env call = aborted .synthesisError [] ∨
     handle_call cfg env call = aborted .negotiationError []) ∧
    fullTrace cfg env call notes = [] := by
  have habort : handle_call cfg env call = aborted .synthesisError [] ∨
      handle_call cfg env call = aborted .negotiationError [] := by
    unfold handle_call
    simp only [hid, hev, hs, ho, if_true]
    cases htts : env.tts with
    | error te => exact Or.inl rfl
    | ok w =>
      cases hr : env.setRemote with
      | error re => exact Or.inr rfl
      | ok ru =>
        cases ha : env.createAnswer with
        | error ae => exact Or.inr rfl
        | ok ans =>
          cases hl : env.setLocal with
          | error le => exact Or.inr rfl
          | ok lu =>
            rcases h with ⟨e, he⟩ | ⟨e, he⟩ | ⟨e, he⟩ | ⟨e, he⟩ <;> simp_all
  refine ⟨habort, ?_⟩
  rcases habort with hc | hc <;>
    simp [fullTrace, hc, deliverAll_unregistered, aborted]

/-- C4 (witness): the scenario connect event in an environment where TTS
synthesis fails. -/
theorem C4_failure_aborts_no_signaling_witness :
    (handle_call cfg0 envTtsFail connectPayload = aborted .synthesisError [] ∨
     handle_call cfg0 envTtsFail connectPayload = aborted .negotiationError []) ∧
    fullTrace cfg0 envTtsFail connectPayload ["connected"] = [] :=
  C4_failure_aborts_no_signaling cfg0 envTtsFail connectPayload ["connected"]
    "C1" "OFFER_X" ⟨some "OFFER_X"⟩ rfl rfl rfl rfl
    (Or.inl ⟨.unavailable, rfl⟩)

/-- C8 (counterexample): a `pre_accept` send failure does not always
leave the session able to react to a later "connected" notification, and
the run does not report the failure.  When the POST raises a
network-level exception (one flavor of SignalingError), the coroutine
aborts before the `@pc.on` registration, so a later "connected"
notification triggers nothing; and when the POST merely returns an error
response, the run records no error at all (the response object is
discarded), so nothing is reported. -/
theorem C8_counterexample :
    (handle_call cfg0 envPreAcceptRaised connectPayload).error =
      some .signalingRaised ∧
    (handle_call cfg0 envPreAcceptRaised connectPayload).handlerRegistered =
      false ∧
    (deliverOne cfg0 (handle_call cfg0 envPreAcceptRaised connectPayload)
        "connected").2 = [] ∧
    (handle_call cfg0 envPreAccept500 connectPayload).error = none := by
  decide

/-- C8 (amended): the two flavors of a `pre_accept` send failure behave
differently.  If the POST returns an error HTTP response, the run does
not report the failure (the response is discarded and the outcome
records no error) and the media session is not torn down: the run
completes with "TTS sent", the ICE handler is registered, and a later
"connected" notification still triggers the `accept` post.  If instead
the POST raises (network failure), the coroutine aborts with that
exception after attempting the post and before registering the handler:
the peer connection is never explicitly closed, but a later "connected"
notification is not reacted to. -/
theorem C8_send_failure_behavior (cfg : Config) (env : Env)
    (call : CallPayload) (cid o w ans : String) (sess : SessionPayload)
    (hid : call.id = some cid) (hev : call.event = some "connect")
    (hs : call.session = some sess) (ho : sess.sdp = some o)
    (htts : env.tts = .ok w) (hr : env.setRemote = .ok ())
    (ha : env.createAnswer = .ok ans) (hl : env.setLocal = .ok ()) :
    (∀ status, env.preAcceptSend = .response status →
        handle_call cfg env call =
          { response := some "TTS sent", error := none,
            posts := [preAcceptPost cfg cid ans],
            handlerRegistered := true, handlerCallId := cid,
            handlerSdp := ans, pcClosed := false } ∧
        (deliverOne cfg (handle_call cfg env call) "connected").2 =
          [acceptPost cfg cid ans]) ∧
    (env.preAcceptSend = .raised →
        handle_call cfg env call =
          aborted .signalingRaised [preAcceptPost cfg cid ans] ∧
        (deliverOne cfg (handle_call cfg env call) "connected").2 = [] ∧
        (handle_call cfg env call).pcClosed = false) := by
  obtain ⟨i, e, s⟩ := call
  subst hid
  subst hev
  subst hs
  obtain ⟨osdp⟩ := sess
  subst ho
  constructor
  · intro status hp
    have hc := handle_call_ok cfg env cid o w ans status htts hr ha hl hp
    rw [hc]
    exact ⟨rfl, by simp [deliverOne, iceHandlerBody]⟩
  · intro hp
    have hc := handle_call_raised cfg env cid o w ans htts hr ha hl hp
    rw [hc]
    exact ⟨rfl, by simp [deliverOne, aborted], rfl⟩

/-- C8 (witness): the response-flavor branch instantiated on the scenario
connect event with the `pre_accept` POST answered by a 500 response. -/
theorem C8_send_failure_behavior_witness :
    handle_call cfg0 envPreAccept500 connectPayload =
      { response := some "TTS sent", error := none,
        posts := [preAcceptPost cfg0 "C1" "ANSWER_Y"],
        handlerRegistered := true, handlerCallId := "C1",
        handlerSdp := "ANSWER_Y", pcClosed := false } ∧
    (deliverOne cfg0 (handle_call cfg0 envPreAccept500 connectPayload)
        "connected").2 = [acceptPost cfg0 "C1" "ANSWER_Y"] :=
  (C8_send_failure_behavior cfg0 envPreAccept500 connectPayload
      "C1" "OFFER_X" "/tmp/welcome.wav" "ANSWER_Y" ⟨some "OFFER_X"⟩
      rfl rfl rfl rfl rfl rfl rfl rfl).1 500 rfl

/-- In a trace of the form `p :: t` with `p` a pre-accept for `cid` and
every element of `t` an accept for `cid`, every accept has an earlier
pre-accept with the same call id. -/
lemma pre_before_accept_aux (l : List Post) (cid : String) (p : Post)
    (t : List Post) (hl : l = p :: t) (hp : p.action = "pre_accept")
    (hpc : p.call_id = cid)
    (ht : ∀ q ∈ t, q.action = "accept" ∧ q.call_id = cid)
    (k : Nat) (hk : k < l.length)
    (hacc : (l.get ⟨k, hk⟩).action = "accept") :
    ∃ j, ∃ hj : j < l.length, j < k ∧
      (l.get ⟨j, hj⟩).action = "pre_accept" ∧
      (l.get ⟨j, hj⟩).call_id = (l.get ⟨k, hk⟩).call_id := by
  subst hl
  cases k with
  | zero =>
      rw [show ((p :: t).get ⟨0, hk⟩) = p from rfl, hp] at hacc
      exact absurd hacc (by decide)
  | succ k2 =>
      have hk2 : k2 < t.length := Nat.lt_of_succ_lt_succ hk
      have hget : (p :: t).get ⟨k2 + 1, hk⟩ = t.get ⟨k2, hk2⟩ := rfl
      have hq := ht (t.get ⟨k2, hk2⟩) (t.get_mem k2 hk2)
      refine ⟨0, Nat.succ_pos _, Nat.succ_pos _, hp, ?_⟩
      rw [show ((p :: t).get ⟨0, Nat.succ_pos _⟩) = p from rfl, hget, hq.2, hpc]

/-- C1: in the complete signaling trace of any run — inline posts followed
by notification-triggered posts — every `accept` is preceded by an earlier
`pre_accept` for the same call id: the `pre_accept` POST happens inline
before the ICE handler is even registered, and `accept` posts arise only
from that handler. -/
theorem C1_pre_accept_before_accept (cfg : Config) (env : Env)
    (call : CallPayload) (notes : List String) (k : Nat)
    (hk : k < (fullTrace cfg env call notes).length)
    (hacc : ((fullTrace cfg env call notes).get ⟨k, hk⟩).action = "accept") :
    ∃ j, ∃ hj : j < (fullTrace cfg env call notes).length, j < k ∧
      ((fullTrace cfg env call notes).get ⟨j, hj⟩).action = "pre_accept" ∧
      ((fullTrace cfg env call notes).get ⟨j, hj⟩).call_id =
        ((fullTrace cfg env call notes).get ⟨k, hk⟩).call_id := by
  cases hreg : (handle_call cfg env call).handlerRegistered with
  | false =>
      exfalso
      have hmem : (fullTrace cfg env call notes).get ⟨k, hk⟩ ∈
          fullTrace cfg env call notes :=
        (fullTrace cfg env call notes).get_mem k hk
      have hmem2 : (fullTrace cfg env call notes).get ⟨k, hk⟩ ∈
          (handle_call cfg env call).posts := by
        have hdel := deliverAll_unregistered cfg (handle_call cfg env call)
          notes hreg
        simp only [fullTrace, hdel, List.append_nil] at hmem
        exact hmem
      obtain ⟨cid, ans, _, _, hqe⟩ := handle_call_posts cfg env call _ hmem2
      rw [hqe] at hacc
      simp [preAcceptPost] at hacc
  | true =>
      obtain ⟨cid, o, w, ans, status, sess, hid, hev, hs, ho, htts, hr, ha,
        hl, hp, hc⟩ := handle_call_registered cfg env call hreg
      have hposts : (handle_call cfg env call).posts =
          [preAcceptPost cfg cid ans] := by rw [hc]
      have hl2 : fullTrace cfg env call notes =
          preAcceptPost cfg cid ans ::
            (deliverAll cfg (handle_call cfg env call) notes).2 := by
        simp [fullTrace, hposts]
      have ht : ∀ q ∈ (deliverAll cfg (handle_call cfg env call) notes).2,
          q.action = "accept" ∧ q.call_id = cid := by
        intro q hq
        obtain ⟨_, hqe⟩ :=
          deliverAll_mem cfg (handle_call cfg env call) notes q hq
        have h1 : (handle_call cfg env call).handlerCallId = cid := by rw [hc]
        rw [hqe, h1]
        exact ⟨rfl, rfl⟩
      exact pre_before_accept_aux (fullTrace cfg env call notes) cid
        (preAcceptPost cfg cid ans) _ hl2 rfl rfl ht k hk hacc

/-- C1 (witness): the scenario run followed by one "connected"
notification; its trace is a `pre_accept` then an `accept`, and the
`accept` at position 1 has the earlier `pre_accept` at position 0. -/
theorem C1_pre_accept_before_accept_witness :
    ∃ j, ∃ hj : j < (fullTrace cfg0 envOK connectPayload ["connected"]).length,
      j < 1 ∧
      ((fullTrace cfg0 envOK connectPayload ["connected"]).get
        ⟨j, hj⟩).action = "pre_accept" ∧
      ((fullTrace cfg0 envOK connectPayload ["connected"]).get
        ⟨j, hj⟩).call_id =
        ((fullTrace cfg0 envOK connectPayload ["connected"]).get
          ⟨1, by decide⟩).call_id :=
  C1_pre_accept_before_accept cfg0 envOK connectPayload ["connected"] 1
    (by decide) (by decide)

/-- C3 (counterexample): two successive "connected" notifications after
the successful scenario run yield two `accept` posts, not one — the
callback rechecks `pc.iceConnectionState` but keeps no flag, so the
duplicate notification is not an idempotent no-op. -/
theorem C3_counterexample :
    ((fullTrace cfg0 envOK connectPayload ["connected", "connected"]).filter
        (fun q => q.action == "accept")).length ≠ 1 := by
  decide

/-- C3 (amended): after a successful run, each delivered "connected"
notification triggers exactly one `accept` post: the number of `accept`
posts in the trace equals the number of "connected" notifications
delivered, with no deduplication. -/
theorem C3_accept_count (cfg : Config) (env : Env) (call : CallPayload)
    (notes : List String)
    (hreg : (handle_call cfg env call).handlerRegistered = true) :
    ((fullTrace cfg env call notes).filter
        (fun q => q.action == "accept")).length =
      (notes.filter (fun n => n == "connected")).length := by
  obtain ⟨cid, o, w, ans, status, sess, hid, hev, hs, ho, htts, hr, ha,
    hl, hp, hc⟩ := handle_call_registered cfg env call hreg
  have hposts : (handle_call cfg env call).posts =
      [preAcceptPost cfg cid ans] := by rw [hc]
  have hfilter : ((deliverAll cfg (handle_call cfg env call) notes).2).filter
      (fun q => q.action == "accept") =
      (deliverAll cfg (handle_call cfg env call) notes).2 := by
    rw [List.filter_eq_self]
    intro q hq
    obtain ⟨_, hqe⟩ := deliverAll_mem cfg (handle_call cfg env call) notes q hq
    rw [hqe]
    simp [acceptPost]
  simp only [fullTrace, List.filter_append, hposts, List.length_append]
  rw [hfilter, deliverAll_length cfg _ notes hreg]
  simp [preAcceptPost]

/-- C3 (amended, witness): two "connected" notifications after the
scenario run give as many `accept` posts as there are "connected"
notifications (namely two). -/
theorem C3_accept_count_witness :
    ((fullTrace cfg0 envOK connectPayload ["connected", "connected"]).filter
        (fun q => q.action == "accept")).length =
      ((["connected", "connected"] : List String).filter
        (fun n => n == "connected")).length :=
  C3_accept_count cfg0 envOK connectPayload ["connected", "connected"]
    (by decide)

/-- C7: every post in any run's signaling trace goes to
`{GRAPH}/{phone_number_id}/calls` with the bearer-token header and the
JSON body fields `messaging_product = "whatsapp"`, the payload's call id,
action `pre_accept` or `accept`, `sdp_type = "answer"`, and the SDP
produced by `createAnswer` (the local answer). -/
theorem C7_post_shape (cfg : Config) (env : Env) (call : CallPayload)
    (notes : List String) (q : Post)
    (hq : q ∈ fullTrace cfg env call notes) :
    q.url = GRAPH ++ "/" ++ cfg.phoneNumberId ++ "/calls" ∧
    q.authorization = "Bearer " ++ cfg.token ∧
    q.messaging_product = "whatsapp" ∧
    (q.action = "pre_accept" ∨ q.action = "accept") ∧
    q.sdp_type = "answer" ∧
    (∃ cid, call.id = some cid ∧ q.call_id = cid) ∧
    env.createAnswer = .ok q.sdp := by
  simp only [fullTrace, List.mem_append] at hq
  rcases hq with hq | hq
  · obtain ⟨cid, ans, hcid, hans, hqe⟩ := handle_call_posts cfg env call q hq
    subst hqe
    exact ⟨rfl, rfl, rfl, Or.inl rfl, rfl, ⟨cid, hcid, rfl⟩, hans⟩
  · have hreg := (deliverAll_mem cfg (handle_call cfg env call) notes q hq).1
    have hqe := (deliverAll_mem cfg (handle_call cfg env call) notes q hq).2
    obtain ⟨cid, o, w, ans, status, sess, hid, hev, hs, ho, htts, hr, ha,
      hl, hp, hc⟩ := handle_call_registered cfg env call hreg
    have h1 : (handle_call cfg env call).handlerCallId = cid := by rw [hc]
    have h2 : (handle_call cfg env call).handlerSdp = ans := by rw [hc]
    rw [h1, h2] at hqe
    subst hqe
    exact ⟨rfl, rfl, rfl, Or.inr rfl, rfl, ⟨cid, hid, rfl⟩, ha⟩

/-- C7 (witness): the shape facts for the `pre_accept` post of the
scenario run. -/
theorem C7_post_shape_witness :
    (preAcceptPost cfg0 "C1" "ANSWER_Y").url =
        GRAPH ++ "/" ++ cfg0.phoneNumberId ++ "/calls" ∧
    (preAcceptPost cfg0 "C1" "ANSWER_Y").authorization =
        "Bearer " ++ cfg0.token ∧
    (preAcceptPost cfg0 "C1" "ANSWER_Y").messaging_product = "whatsapp" ∧
    ((preAcceptPost cfg0 "C1" "ANSWER_Y").action = "pre_accept" ∨
      (preAcceptPost cfg0 "C1" "ANSWER_Y").action = "accept") ∧
    (preAcceptPost cfg0 "C1" "ANSWER_Y").sdp_type = "answer" ∧
    (∃ cid, connectPayload.id = some cid ∧
      (preAcceptPost cfg0 "C1" "ANSWER_Y").call_id = cid) ∧
    envOK.createAnswer = .ok (preAcceptPost cfg0 "C1" "ANSWER_Y").sdp :=
  C7_post_shape cfg0 envOK connectPayload []
    (preAcceptPost cfg0 "C1" "ANSWER_Y") (by decide)

end WaWebhook
